import Mathlib

/-!
# femorph-webapi client (`femorph_client.go`)

A shallow embedding of the Go client and the properties of its
task-completion monitor, its HTTP helpers and its orchestrator.

Modelling conventions.

* Go values of type `error` are `GoError`; a nil error is `none`.
* A Go function is a Lean function of the `World` (the answers of the
  operating system, the HTTP server, the websocket peer and the pieces of
  the Go runtime that the program cannot compute itself) returning a `Run`:
  how the call ends (`Outcome`) and the effects it performed, in order.
* `log.Printf`/`log.Println` are not recorded.  `log.Fatal`/`log.Fatalf`
  end the process: `Outcome.fatal` with the operands handed to the logger.
* The websocket connection is the finite list of results its successive
  `ReadMessage` calls deliver; when the list is used up the call is still
  waiting in `ReadMessage` (`Outcome.blocked`).
-/

namespace Femorph

/-! ## Constants -/

def ProdAddr : String := "api.femorph.com"
def BasePath : String := "data/cube.cdb"
def SurfacePath : String := "data/sphere.ply"
/-- The value of `http.StatusOK`. -/
def StatusOK : Nat := 200

/-! ## Errors, outcomes, effects -/

/-- A Go `error` value: one handed over by a library call (`lib`), or one
made by `errors.New` in this program (`new`). -/
inductive GoError where
  | lib (e : String)
  | new (msg : String)
  deriving DecidableEq, Repr

/-- One operand of a call to the fatal logger. -/
inductive LogArg where
  | text (s : String)
  | bytes (b : String)
  | err (e : GoError)
  | response (status : Nat) (body : String)
  | unmarshalError
  | value (keys : List String)
  deriving DecidableEq, Repr

/-- How a call ends: it returns, the process is ended by `log.Fatal`
(`formatted` tells `Fatalf` from `Fatal`), the process panics, or the call
never returns because it waits for a message that does not come. -/
inductive Outcome (α : Type) where
  | ret (a : α)
  | fatal (formatted : Bool) (args : List LogArg)
  | panic (msg : String)
  | blocked
  deriving DecidableEq, Repr

/-- The body of an outgoing HTTP request. -/
inductive ReqBody where
  | empty
  | json (fields : List (String × String))
  | multipart (boundary field filename content : String)
  deriving DecidableEq, Repr

/-- An outgoing HTTP request (`*http.Request`). -/
structure Request where
  method : String
  url : String
  headers : List (String × String)
  body : ReqBody
  deriving DecidableEq, Repr

/-- An HTTP response: status code and the bytes of the body. -/
structure Response where
  statusCode : Nat
  body : String
  deriving DecidableEq, Repr

/-- The effects a call performs on files and on the network. -/
inductive Effect where
  | fileOpen (path : String)
  | fileClose (path : String)
  | formFile (field filename : String)
  | fileCopy (path : String)
  | httpGet (url : String)
  | httpPost (url contentType : String) (body : ReqBody)
  | httpDo (req : Request)
  | bodyClose
  | wsDial (url : String)
  | wsRead
  | wsClose
  deriving DecidableEq, Repr

/-- The effects that go over the network. -/
def Effect.isNetwork : Effect → Bool
  | .httpGet _ => true
  | .httpPost _ _ _ => true
  | .httpDo _ => true
  | .wsDial _ => true
  | .wsRead => true
  | .wsClose => true
  | .bodyClose => true
  | _ => false

/-- A finished (or stuck) call: its outcome and its effects in order. -/
structure Run (α : Type) where
  out : Outcome α
  effects : List Effect
  deriving DecidableEq, Repr

/-! ## JSON values and `encoding/json` -/

/-- A JSON document as `encoding/json` sees it after scanning. -/
inductive Json where
  | null
  | bool (b : Bool)
  | num (lit : String)
  | str (s : String)
  | arr (items : List Json)
  | obj (members : List (String × Json))

/-- What one `conn.ReadMessage()` delivers. -/
inductive ReadResult where
  | fail (e : String)
  | msg (message : String)
  deriving DecidableEq, Repr

/-- An open file: the result of reading it to the end (`io.Copy`). -/
structure File where
  content : Except String String

/-- The answers of everything outside the program. -/
structure World where
  /-- The scanner of `json.Unmarshal` with an `interface{}` target: the whole input is
  one JSON value, or there is an error. -/
  unmarshal : String → Option Json
  /-- The scanner of `json.NewDecoder(r).Decode`: the first JSON value of the input. -/
  decodeFirst : String → Option Json
  /-- The address the runtime gives to a string allocated for a `*string` field. -/
  alloc : String → Nat
  getenv : String → String
  filepathBase : String → String
  boundary : String
  osOpen : String → Except String File
  createFormFile : String → String → Option String
  newRequest : String → String → Option String
  httpGet : String → Except String Response
  httpPost : String → String → ReqBody → Except String Response
  httpDo : Request → Except String Response
  wsDial : String → Except String (List ReadResult)

/-- The order of Go strings (byte by byte, which for UTF-8 is character by
character), in which `json.Marshal` sorts the keys of a map. -/
def keyLt (a b : String) : Bool := decide (a.data < b.data)

/-- A Go `map[string]T`, kept as the list of its entries in increasing key
order, which is the order `json.Marshal` writes them in. -/
def mapSet {α : Type} (k : String) (v : α) : List (String × α) → List (String × α)
  | [] => [(k, v)]
  | (k', v') :: rest =>
    if k = k' then (k, v) :: rest
    else if keyLt k k' then (k, v) :: (k', v') :: rest
    else (k', v') :: mapSet k v rest

/-- The Go expression `m[k]`, `none` when the key is absent. -/
def mapGet {α : Type} (k : String) : List (String × α) → Option α
  | [] => none
  | (k', v) :: rest => if k = k' then some v else mapGet k rest

/-- Decoding the members of a JSON object into a map: a later member with
the same key replaces an earlier one. -/
def toMap {α : Type} (members : List (String × α)) : List (String × α) :=
  members.foldl (fun m kv => mapSet kv.1 kv.2 m) []

/-- The call `json.Unmarshal(message, &data)` with `data map[string]interface{}`: an
object fills the map, `null` leaves it nil without an error, anything else
(also bytes that are no JSON) is an error (`none`). -/
def unmarshalMap (w : World) (message : String) : Option (List (String × Json)) :=
  match w.unmarshal message with
  | some (.obj members) => some (toMap members)
  | some .null => some []
  | _ => none

/-- A Go `*string` that is not nil: where it points and what is there. -/
structure StrPtr where
  addr : Nat
  val : String
  deriving DecidableEq, Repr

structure TaskUpdate where
  TaskID : String
  Status : String
  UpdatedAt : String
  Result : Option StrPtr
  Error : Option StrPtr
  deriving DecidableEq, Repr

/-- The zero value of `TaskUpdate` (`var update TaskUpdate`). -/
def TaskUpdate.zero : TaskUpdate := ⟨"", "", "", none, none⟩

/-- The fields of `TaskUpdate`. -/
inductive Field where
  | taskID | status | updatedAt | result | error
  deriving DecidableEq, Repr

/-- The JSON name of a field, from its struct tag. -/
def Field.tag : Field → String
  | .taskID => "task_id"
  | .status => "status"
  | .updatedAt => "updatedAt"
  | .result => "result"
  | .error => "error"

def Field.all : List Field := [.taskID, .status, .updatedAt, .result, .error]

/-- Case folding of one character as `encoding/json` does it for the five
tags above: ASCII letters, and the two other characters that fold to an
ASCII letter (the Kelvin sign and the long s). -/
def foldRune (c : Char) : Char :=
  if 'a' ≤ c ∧ c ≤ 'z' then Char.ofNat (c.toNat - 32)
  else if c = Char.ofNat 0x212A then 'K'
  else if c = Char.ofNat 0x17F then 'S'
  else c

def foldName (s : String) : String := String.mk (s.data.map foldRune)

/-- The field an object key is stored in: the one whose tag is the key,
else the one whose tag equals the key up to case. -/
def findField (key : String) : Option Field :=
  match Field.all.find? (fun f => f.tag = key) with
  | some f => some f
  | none => Field.all.find? (fun f => foldName f.tag = foldName key)

/-- Storing a value in a `string` field: `null` is skipped, a value of
another JSON type is a type error (the flag turns false). -/
def storeString (v : Json) (old : String) : String × Bool :=
  match v with
  | .str s => (s, true)
  | .null => (old, true)
  | _ => (old, false)

/-- Storing a value in a `*string` field: `null` makes it nil, a string is
allocated, another JSON type is a type error. -/
def storePtr (w : World) (v : Json) (old : Option StrPtr) : Option StrPtr × Bool :=
  match v with
  | .str s => (some ⟨w.alloc s, s⟩, true)
  | .null => (none, true)
  | _ => (old, false)

/-- One member of the payload object stored in its field. The decoder
remembers a type error and goes on with the next member. -/
def storeField (w : World) (f : Field) (v : Json) (st : TaskUpdate × Bool) : TaskUpdate × Bool :=
  match f with
  | .taskID => let r := storeString v st.1.TaskID; ({ st.1 with TaskID := r.1 }, st.2 && r.2)
  | .status => let r := storeString v st.1.Status; ({ st.1 with Status := r.1 }, st.2 && r.2)
  | .updatedAt =>
    let r := storeString v st.1.UpdatedAt; ({ st.1 with UpdatedAt := r.1 }, st.2 && r.2)
  | .result => let r := storePtr w v st.1.Result; ({ st.1 with Result := r.1 }, st.2 && r.2)
  | .error => let r := storePtr w v st.1.Error; ({ st.1 with Error := r.1 }, st.2 && r.2)

/-- The two calls `payload, _ := json.Marshal(data["payload"])` and
`json.Unmarshal(payload, &update)`: an absent payload is marshalled as
`null`, which leaves `update` zero; an object is written in key order and
read back member by member; any other value is a type error (`none`). -/
def unmarshalTaskUpdate (w : World) (payload : Option Json) : Option TaskUpdate :=
  match payload with
  | none => some TaskUpdate.zero
  | some .null => some TaskUpdate.zero
  | some (.obj members) =>
    let st := (toMap members).foldl
      (fun st kv =>
        match findField kv.1 with
        | some f => storeField w f kv.2 st
        | none => st)
      (TaskUpdate.zero, true)
    if st.2 then some st.1 else none
  | some _ => none

/-! ## `fmt` -/

/-- The address held by a `*string`, zero for nil. -/
def ptrAddr : Option StrPtr → Nat
  | none => 0
  | some p => p.addr

/-- The verb `%v` applied to a `*string`: `<nil>` or the address in hexadecimal. -/
def fmtPointer (p : Option StrPtr) : String :=
  if ptrAddr p = 0 then "<nil>" else "0x" ++ String.mk (Nat.toDigits 16 (ptrAddr p))

/-! ## `waitForTaskCompletion` -/

/-- The body of the receive loop for one message that was read:
`none` is `continue` (or falling out of the `if`s), `some r` is `return r`. -/
def handleMessage (w : World) (taskID message : String) : Option (Option GoError) :=
  match unmarshalMap w message with
  | none => none
  | some data =>
    match mapGet "type" data with
    | some (.str ty) =>
      if ty = "task_update" then
        match unmarshalTaskUpdate w (mapGet "payload" data) with
        | none => none
        | some update =>
          if update.TaskID = taskID then
            if update.Status = "completed" then some none
            else if update.Status = "failed" then
              some (some (.new ("Task " ++ taskID ++ " failed: " ++ fmtPointer update.Error)))
            else none
          else none
      else none
    | _ => none

/-- The `for` loop of `waitForTaskCompletion` over the results of the
successive reads: what the function returns, and how many reads it made. -/
def waitLoop (w : World) (taskID : String) : List ReadResult → Outcome (Option GoError) × Nat
  | [] => (.blocked, 0)
  | .fail e :: _ => (.ret (some (.lib e)), 1)
  | .msg message :: rest =>
    match handleMessage w taskID message with
    | some r => (.ret r, 1)
    | none => ((waitLoop w taskID rest).1, (waitLoop w taskID rest).2 + 1)

/-- The effects of the loop: its reads, and `conn.Close()` when it returns. -/
def waitEffects (r : Outcome (Option GoError) × Nat) : List Effect :=
  List.replicate r.2 Effect.wsRead ++
    (match r.1 with
     | .blocked => []
     | _ => [Effect.wsClose])

def waitForTaskCompletion (w : World) (taskID userID wsURL : String) : Run (Option GoError) :=
  let url := wsURL ++ "/" ++ userID
  match w.wsDial url with
  | .error err => ⟨.ret (some (.lib err)), [.wsDial url]⟩
  | .ok conn =>
    let r := waitLoop w taskID conn
    ⟨r.1, .wsDial url :: waitEffects r⟩

/-! ## The HTTP helpers -/

/-- The panic of the Go runtime when a nil pointer is used. -/
def nilDereference : String := "runtime error: invalid memory address or nil pointer dereference"

def assertHealthy (w : World) (baseURL : String) : Run Unit :=
  let url := baseURL ++ "/health"
  match w.httpGet url with
  | .error _ => ⟨.fatal false [.text "Application not healthy"], [.httpGet url]⟩
  | .ok resp =>
    if resp.statusCode ≠ StatusOK then
      ⟨.fatal false [.text "Application not healthy"], [.httpGet url]⟩
    else ⟨.ret (), [.httpGet url]⟩

/-- The value stored in a `map[string]string` for one member: the string,
or the zero value when the member is `null` or of another JSON type. -/
def stringOf : Json → String
  | .str s => s
  | _ => ""

/-- The call `json.NewDecoder(resp.Body).Decode(&data)` with `data map[string]string`,
its error dropped as in the source: an object fills the map, anything else
leaves it nil. -/
def decodeStringMap (w : World) (body : String) : List (String × String) :=
  match w.decodeFirst body with
  | some (.obj members) => toMap (members.map (fun kv => (kv.1, stringOf kv.2)))
  | _ => []

/-- The Go expression `data[k]` of a `map[string]string`: the zero value when absent. -/
def lookupString (k : String) (data : List (String × String)) : String :=
  (mapGet k data).getD ""

def authenticate (w : World) (username password baseURL : String) : Run (String × String) :=
  let payload := toMap [("email", username), ("password", password)]
  let url := baseURL ++ "/auth"
  match w.httpPost url "application/json" (.json payload) with
  | .error err => ⟨.fatal false [.err (.lib err)], [.httpPost url "application/json" (.json payload)]⟩
  | .ok resp =>
    let data := decodeStringMap w resp.body
    let access_token := lookupString "access_token" data
    if access_token = "" then
      ⟨.fatal false [.text "No access token: %s", .response resp.statusCode resp.body],
        [.httpPost url "application/json" (.json payload)]⟩
    else
      ⟨.ret (lookupString "user_id" data, access_token),
        [.httpPost url "application/json" (.json payload), .bodyClose]⟩

def clearSession (w : World) (userID accessToken baseURL : String) : Run (Option GoError) :=
  let url := baseURL ++ "/users/" ++ userID ++ "/data"
  match w.newRequest "DELETE" url with
  | some _ =>
    -- `req` is nil and `err` is not looked at: `req.Header.Set` uses the nil pointer
    ⟨.panic nilDereference, []⟩
  | none =>
    let req : Request := ⟨"DELETE", url, [("Authorization", "Bearer " ++ accessToken)], .empty⟩
    match w.httpDo req with
    | .error err => ⟨.ret (some (.lib err)), [.httpDo req]⟩
    | .ok _ => ⟨.ret none, [.httpDo req, .bodyClose]⟩

/-- The request `uploadFile` builds for a file with the given content. -/
def uploadRequest (w : World) (filePath endpoint userID accessToken baseURL content : String) :
    Request :=
  ⟨"POST", baseURL ++ "/users/" ++ userID ++ "/" ++ endpoint,
    [("Content-Type", "multipart/form-data; boundary=" ++ w.boundary),
     ("Filename", w.filepathBase filePath),
     ("Authorization", "Bearer " ++ accessToken)],
    .multipart w.boundary "file" (w.filepathBase filePath) content⟩

/-- The type assertion `resData[k].(string)`: the string and `ok`. -/
def assertString (k : String) (resData : List (String × Json)) : String × Bool :=
  match mapGet k resData with
  | some (.str s) => (s, true)
  | _ => ("", false)

def uploadFile (w : World) (filePath endpoint userID accessToken baseURL : String) :
    Run (String × Option GoError) :=
  match w.osOpen filePath with
  | .error err => ⟨.ret ("", some (.lib err)), [.fileOpen filePath]⟩
  | .ok file =>
    let base := w.filepathBase filePath
    match w.createFormFile "file" base with
    | some err =>
      ⟨.ret ("", some (.lib err)), [.fileOpen filePath, .formFile "file" base, .fileClose filePath]⟩
    | none =>
      match file.content with
      | .error err =>
        ⟨.ret ("", some (.lib err)),
          [.fileOpen filePath, .formFile "file" base, .fileCopy filePath, .fileClose filePath]⟩
      | .ok content =>
        let url := baseURL ++ "/users/" ++ userID ++ "/" ++ endpoint
        let pre := [Effect.fileOpen filePath, .formFile "file" base, .fileCopy filePath]
        match w.newRequest "POST" url with
        | some err => ⟨.ret ("", some (.lib err)), pre ++ [.fileClose filePath]⟩
        | none =>
          let req := uploadRequest w filePath endpoint userID accessToken baseURL content
          match w.httpDo req with
          | .error err => ⟨.ret ("", some (.lib err)), pre ++ [.httpDo req, .fileClose filePath]⟩
          | .ok resp =>
            let body := resp.body
            if resp.statusCode ≠ StatusOK then
              ⟨.fatal false [.text "Upload failed: %s", .bytes body], pre ++ [.httpDo req]⟩
            else
              match unmarshalMap w body with
              | none =>
                ⟨.fatal false [.text "Failed to parse upload response:", .unmarshalError],
                  pre ++ [.httpDo req]⟩
              | some resData =>
                let r := assertString "id" resData
                if !r.2 || r.1 = "" then
                  ⟨.fatal false [.text "Upload response missing file ID:",
                      .value (resData.map Prod.fst)], pre ++ [.httpDo req]⟩
                else
                  ⟨.ret (r.1, none), pre ++ [.httpDo req, .bodyClose, .fileClose filePath]⟩

def morphFem (w : World) (femID surfaceID userID accessToken baseURL : String) : Run String :=
  let url := baseURL ++ "/users/" ++ userID ++ "/fems/" ++ femID ++ "/morph"
  let payload := toMap [("target", surfaceID)]
  match w.newRequest "POST" url with
  | some err => ⟨.fatal false [.text "Failed to create request:", .err (.lib err)], []⟩
  | none =>
    let req : Request :=
      ⟨"POST", url,
        [("Authorization", "Bearer " ++ accessToken), ("Content-Type", "application/json")],
        .json payload⟩
    match w.httpDo req with
    | .error err => ⟨.fatal false [.text "Request failed:", .err (.lib err)], [.httpDo req]⟩
    | .ok resp =>
      let body := resp.body
      if resp.statusCode ≠ StatusOK then
        ⟨.fatal true [.text "Morph request failed: %s", .bytes body], [.httpDo req]⟩
      else
        match unmarshalMap w body with
        | none =>
          ⟨.fatal false [.text "Failed to parse morph response:", .unmarshalError], [.httpDo req]⟩
        | some resData =>
          let r := assertString "task_id" resData
          if !r.2 || r.1 = "" then
            ⟨.fatal false [.text "Morph task ID missing in response:",
                .value (resData.map Prod.fst)], [.httpDo req]⟩
          else ⟨.ret r.1, [.httpDo req, .bodyClose]⟩

/-! ## The orchestrator -/

/-- The steps of the pipeline. -/
inductive Step where
  | health | authenticate | clearSession | uploadMesh | uploadSurface | morph | wait
  deriving DecidableEq, Repr

/-- The order in which `main` calls the steps. -/
def Step.pipeline : List Step :=
  [.health, .authenticate, .clearSession, .uploadMesh, .uploadSurface, .morph, .wait]

/-- How a step ended, as its caller sees it: it returned without an error,
it returned an error value, it ended the process, or it never returned. -/
inductive StepEnd where
  | ok | error | fatal | panic | blocked
  deriving DecidableEq, Repr

/-- The end of a step, read off the outcome of the call; `isErr` tells
whether a returned value carries a non-nil error. -/
def Outcome.stepEnd {α : Type} (isErr : α → Bool) : Outcome α → StepEnd
  | .ret a => if isErr a then .error else .ok
  | .fatal _ _ => .fatal
  | .panic _ => .panic
  | .blocked => .blocked

/-- The outcome of `main` when a call did not return. -/
def Outcome.abort {α : Type} : Outcome α → Outcome Unit
  | .ret _ => .ret ()
  | .fatal f args => .fatal f args
  | .panic m => .panic m
  | .blocked => .blocked

/-- A run of `main`: the steps it called with how each ended, the effects
of the whole run, and how the process ended. -/
structure MainRun where
  steps : List (Step × StepEnd)
  effects : List Effect
  exit : Outcome Unit
  deriving DecidableEq, Repr

def main (w : World) : MainRun :=
  let username := w.getenv "FEMORPH_USERNAME"
  let password := w.getenv "FEMORPH_PASSWORD"
  let baseURL := "https://" ++ ProdAddr
  let wsURL := "wss://" ++ ProdAddr ++ "/ws/subscribe"
  let h := assertHealthy w baseURL
  let s1 := [(Step.health, h.out.stepEnd (fun _ => false))]
  match h.out with
  | .ret _ =>
    let a := authenticate w username password baseURL
    let s2 := s1 ++ [(Step.authenticate, a.out.stepEnd (fun _ => false))]
    let e2 := h.effects ++ a.effects
    match a.out with
    | .ret (userID, accessToken) =>
      let c := clearSession w userID accessToken baseURL
      let s3 := s2 ++ [(Step.clearSession, c.out.stepEnd Option.isSome)]
      let e3 := e2 ++ c.effects
      match c.out with
      | .ret _ =>
        -- the error returned by `clearSession` is dropped
        let f := uploadFile w BasePath "fems" userID accessToken baseURL
        let s4 := s3 ++ [(Step.uploadMesh, f.out.stepEnd (fun r => r.2.isSome))]
        let e4 := e3 ++ f.effects
        match f.out with
        | .ret (femID, none) =>
          let g := uploadFile w SurfacePath "surfaces" userID accessToken baseURL
          let s5 := s4 ++ [(Step.uploadSurface, g.out.stepEnd (fun r => r.2.isSome))]
          let e5 := e4 ++ g.effects
          match g.out with
          | .ret (surfaceID, none) =>
            let m := morphFem w femID surfaceID userID accessToken baseURL
            let s6 := s5 ++ [(Step.morph, m.out.stepEnd (fun _ => false))]
            let e6 := e5 ++ m.effects
            match m.out with
            | .ret taskID =>
              let r := waitForTaskCompletion w taskID userID wsURL
              let s7 := s6 ++ [(Step.wait, r.out.stepEnd Option.isSome)]
              let e7 := e6 ++ r.effects
              match r.out with
              | .ret none => ⟨s7, e7, .ret ()⟩
              | .ret (some err) => ⟨s7, e7, .fatal false [.err err]⟩
              | o => ⟨s7, e7, o.abort⟩
            | o => ⟨s6, e6, o.abort⟩
          | .ret (_, some err) => ⟨s5, e5, .fatal false [.err err]⟩
          | o => ⟨s5, e5, o.abort⟩
        | .ret (_, some err) => ⟨s4, e4, .fatal false [.err err]⟩
        | o => ⟨s4, e4, o.abort⟩
      | o => ⟨s3, e3, o.abort⟩
    | o => ⟨s2, e2, o.abort⟩
  | o => ⟨s1, h.effects, o.abort⟩

/-! ## Well-formed task updates -/

/-- The message is a well-formed `task_update` whose payload decodes to
`update`: it is a JSON object envelope, its `type` is the string
`task_update`, and its `payload` decodes as a `TaskUpdate`. -/
def IsTaskUpdate (w : World) (message : String) (update : TaskUpdate) : Prop :=
  ∃ data, unmarshalMap w message = some data ∧
    mapGet "type" data = some (.str "task_update") ∧
    unmarshalTaskUpdate w (mapGet "payload" data) = some update

/-- The message is a terminal update for the task: a well-formed
`task_update` for `taskID` with status `completed` or `failed`. -/
def IsTerminalFor (w : World) (taskID message : String) : Prop :=
  ∃ update, IsTaskUpdate w message update ∧ update.TaskID = taskID ∧
    (update.Status = "completed" ∨ update.Status = "failed")

/-- The message is not a well-formed `task_update`: it is no JSON object
envelope, or its `type` is not the string `task_update`, or its `payload`
does not decode as a `TaskUpdate`. -/
def IsBadMessage (w : World) (message : String) : Prop :=
  unmarshalMap w message = none ∨
  (∃ data, unmarshalMap w message = some data ∧
    mapGet "type" data ≠ some (.str "task_update")) ∨
  (∃ data, unmarshalMap w message = some data ∧
    unmarshalTaskUpdate w (mapGet "payload" data) = none)

/-- The same world with another websocket peer: every dial succeeds and
the connection delivers `conn`. -/
def World.withConn (w : World) (conn : List ReadResult) : World :=
  { w with wsDial := fun _ => .ok conn }

/-! ## Example worlds -/

/-- An envelope `{"type":"task_update","payload":{...}}` with the given payload members. -/
def taskUpdateDoc (members : List (String × Json)) : Json :=
  .obj [("type", .str "task_update"), ("payload", .obj members)]

def msgT2Running : String :=
  "\x7b\"type\":\"task_update\",\"payload\":\x7b\"task_id\":\"T2\",\"status\":\"running\"\x7d\x7d"
def msgT1Running : String :=
  "\x7b\"type\":\"task_update\",\"payload\":\x7b\"task_id\":\"T1\",\"status\":\"running\"\x7d\x7d"
def msgT1Completed : String :=
  "\x7b\"type\":\"task_update\",\"payload\":\x7b\"task_id\":\"T1\",\"status\":\"completed\"\x7d\x7d"
def msgT2Completed : String :=
  "\x7b\"type\":\"task_update\",\"payload\":\x7b\"task_id\":\"T2\",\"status\":\"completed\"\x7d\x7d"
def msgT1FailedBoom : String :=
  "\x7b\"type\":\"task_update\",\"payload\":\x7b\"task_id\":\"T1\",\"status\":\"failed\",\"error\":\"boom\"\x7d\x7d"
def msgT1CompletedBadDate : String :=
  "\x7b\"type\":\"task_update\",\"payload\":\x7b\"task_id\":\"T1\",\"status\":\"completed\",\"updatedAt\":5\x7d\x7d"
def bodyUserOnly : String := "\x7b\"user_id\":\"u1\"\x7d"
def bodyTokenOnly : String := "\x7b\"access_token\":\"t\"\x7d"
def bodySession : String := "\x7b\"access_token\":\"t\",\"user_id\":\"u1\"\x7d"
def bodyWithId : String := "\x7b\"id\":\"f1\"\x7d"

/-- The JSON documents of the example texts above; any other text is taken
as not being JSON. -/
def exampleJson (s : String) : Option Json :=
  if s = msgT2Running then some (taskUpdateDoc [("task_id", .str "T2"), ("status", .str "running")])
  else if s = msgT1Running then
    some (taskUpdateDoc [("task_id", .str "T1"), ("status", .str "running")])
  else if s = msgT1Completed then
    some (taskUpdateDoc [("task_id", .str "T1"), ("status", .str "completed")])
  else if s = msgT2Completed then
    some (taskUpdateDoc [("task_id", .str "T2"), ("status", .str "completed")])
  else if s = msgT1FailedBoom then
    some (taskUpdateDoc [("task_id", .str "T1"), ("status", .str "failed"), ("error", .str "boom")])
  else if s = msgT1CompletedBadDate then
    some (taskUpdateDoc
      [("task_id", .str "T1"), ("status", .str "completed"), ("updatedAt", .num "5")])
  else if s = bodyUserOnly then some (.obj [("user_id", .str "u1")])
  else if s = bodyTokenOnly then some (.obj [("access_token", .str "t")])
  else if s = bodySession then some (.obj [("access_token", .str "t"), ("user_id", .str "u1")])
  else if s = bodyWithId then some (.obj [("id", .str "f1")])
  else none

/-- A URL that `net/url` refuses: it holds an ASCII control character. -/
def hasControlChar (url : String) : Bool :=
  url.data.any (fun c => c.toNat < 32 || c.toNat = 127)

/-- A world in which the service is healthy, every request can be sent and is
answered with status 200 and an empty body, no file can be opened and the
websocket can not be dialled. The examples below change single answers. -/
def exampleWorld : World where
  unmarshal := exampleJson
  decodeFirst := exampleJson
  alloc := fun _ => 0xc000012120
  getenv := fun _ => "secret"
  filepathBase := fun p => p
  boundary := "b0"
  osOpen := fun _ => .error "open: no such file or directory"
  createFormFile := fun _ _ => none
  newRequest := fun _ url => if hasControlChar url then some "net/url: invalid control character in URL" else none
  httpGet := fun _ => .ok ⟨200, ""⟩
  httpPost := fun _ _ _ => .ok ⟨200, ""⟩
  httpDo := fun _ => .ok ⟨200, ""⟩
  wsDial := fun _ => .error "dial: connection refused"

/-- A world whose `/auth` endpoint answers with status 200 and the given body. -/
def authWorld (body : String) : World :=
  { exampleWorld with httpPost := fun _ _ _ => .ok ⟨200, body⟩ }

/-- A world in which authentication gives a session and every request made
with `client.Do` fails to be sent. -/
def unreachableWorld : World :=
  { exampleWorld with
    httpPost := fun _ _ _ => .ok ⟨200, bodySession⟩
    httpDo := fun _ => .error "connection reset by peer" }

/-- A world in which authentication gives a session, the files can be read
and the service answers every request made with `client.Do` with status 500
and the body `disk full`. -/
def diskFullWorld : World :=
  { exampleWorld with
    httpPost := fun _ _ _ => .ok ⟨200, bodySession⟩
    osOpen := fun _ => .ok ⟨.ok "solid"⟩
    httpDo := fun _ => .ok ⟨500, "disk full"⟩ }

/-! ## Properties of a trace of steps -/

/-- After this step `main` may go on: the step ended `ok`, or it is
`clearSession` and returned an error. -/
def mayContinue : Step × StepEnd → Bool
  | (_, .ok) => true
  | (.clearSession, .error) => true
  | _ => false

/-- The three properties of a trace of steps checked on every run of
`main`: the names of the steps are an initial part of the pipeline; a step
after which `main` may not go on is the last one; and a `clearSession` that
returned an error is followed by the mesh upload. -/
def stepsChecked (l : List (Step × StepEnd)) : Bool :=
  (l.map Prod.fst).isPrefixOf Step.pipeline &&
  l.all (fun x => mayContinue x || l.getLast? == some x) &&
  (!(l.contains (Step.clearSession, StepEnd.error)) || l.any (fun x => x.1 == Step.uploadMesh))

/-! ## Lemmas on the receive loop -/

theorem handleMessage_of_update {w : World} {message : String} {update : TaskUpdate}
    (taskID : String) (h : IsTaskUpdate w message update) :
    handleMessage w taskID message =
      if update.TaskID = taskID then
        if update.Status = "completed" then some none
        else if update.Status = "failed" then
          some (some (.new ("Task " ++ taskID ++ " failed: " ++ fmtPointer update.Error)))
        else none
      else none := by
  obtain ⟨data, h1, h2, h3⟩ := h
  simp [handleMessage, h1, h2, h3]

theorem handleMessage_some {w : World} {taskID message : String} {r : Option GoError}
    (h : handleMessage w taskID message = some r) : IsTerminalFor w taskID message := by
  unfold handleMessage at h
  split at h
  · simp at h
  · rename_i data hdata
    split at h
    · rename_i ty hty
      split at h
      · rename_i htu
        split at h
        · simp at h
        · rename_i update hupd
          refine ⟨update, ⟨data, hdata, by rw [hty, htu], hupd⟩, ?_⟩
          by_cases hid : update.TaskID = taskID
          · by_cases hc : update.Status = "completed"
            · exact ⟨hid, Or.inl hc⟩
            · by_cases hf : update.Status = "failed"
              · exact ⟨hid, Or.inr hf⟩
              · simp [hid, hc, hf] at h
          · simp [hid] at h
      · simp at h
    · simp at h

theorem handleMessage_not_terminal {w : World} {taskID message : String}
    (h : ¬ IsTerminalFor w taskID message) : handleMessage w taskID message = none := by
  cases hm : handleMessage w taskID message with
  | none => rfl
  | some r => exact absurd (handleMessage_some hm) h

theorem handleMessage_bad {w : World} {message : String} (taskID : String)
    (h : IsBadMessage w message) : handleMessage w taskID message = none := by
  apply handleMessage_not_terminal
  rintro ⟨update, ⟨data, h1, h2, h3⟩, -, -⟩
  rcases h with h | ⟨d, hd, hty⟩ | ⟨d, hd, hp⟩
  · simp [h] at h1
  · rw [h1] at hd; cases hd; exact hty h2
  · rw [h1] at hd; cases hd; simp [h3] at hp

theorem waitLoop_skip {w : World} {taskID message : String} (s : List ReadResult)
    (h : handleMessage w taskID message = none) :
    waitLoop w taskID (.msg message :: s) = ((waitLoop w taskID s).1, (waitLoop w taskID s).2 + 1) := by
  simp [waitLoop, h]

theorem waitLoop_skip_many {w : World} {taskID : String} (pre : List String)
    (tail : List ReadResult) (h : ∀ m ∈ pre, handleMessage w taskID m = none) :
    waitLoop w taskID (pre.map .msg ++ tail) =
      ((waitLoop w taskID tail).1, (waitLoop w taskID tail).2 + pre.length) := by
  induction pre with
  | nil => simp
  | cons m pre ih =>
    have hm := h m (by simp)
    have ih := ih (fun x hx => h x (by simp [hx]))
    simp only [List.map_cons, List.cons_append, List.length_cons]
    rw [waitLoop_skip _ hm, ih]
    simp [Nat.add_assoc]

theorem handleMessage_withConn (w : World) (conn : List ReadResult) (taskID message : String) :
    handleMessage (w.withConn conn) taskID message = handleMessage w taskID message := rfl

theorem waitLoop_withConn (w : World) (conn : List ReadResult) (taskID : String)
    (s : List ReadResult) : waitLoop (w.withConn conn) taskID s = waitLoop w taskID s := by
  induction s with
  | nil => simp [waitLoop]
  | cons r s ih =>
    cases r with
    | fail e => simp [waitLoop]
    | msg m => simp [waitLoop, handleMessage_withConn, ih]

theorem waitForTaskCompletion_withConn (w : World) (conn : List ReadResult)
    (taskID userID wsURL : String) :
    waitForTaskCompletion (w.withConn conn) taskID userID wsURL =
      ⟨(waitLoop w taskID conn).1,
        .wsDial (wsURL ++ "/" ++ userID) :: waitEffects (waitLoop w taskID conn)⟩ := by
  simp [waitForTaskCompletion, World.withConn, waitLoop_withConn]
  exact ⟨congrArg Prod.fst (waitLoop_withConn w conn taskID conn),
    congrArg waitEffects (waitLoop_withConn w conn taskID conn)⟩

theorem handleMessage_some_shape {w : World} {taskID message : String} {r : Option GoError}
    (h : handleMessage w taskID message = some r) : r = none ∨ ∃ text, r = some (.new text) := by
  obtain ⟨update, hu, -, -⟩ := handleMessage_some h
  rw [handleMessage_of_update taskID hu] at h
  split at h
  · split at h
    · left; simpa using h.symm
    · split at h
      · right; exact ⟨_, by simpa using h.symm⟩
      · simp at h
  · simp at h

theorem waitLoop_all_msg_ne_lib (w : World) (taskID : String) (msgs : List String) (e : String) :
    (waitLoop w taskID (msgs.map .msg)).1 ≠ .ret (some (.lib e)) := by
  induction msgs with
  | nil => simp [waitLoop]
  | cons m msgs ih =>
    cases hm : handleMessage w taskID m with
    | none => rw [List.map_cons, waitLoop_skip _ hm]; exact ih
    | some r =>
      simp only [List.map_cons, waitLoop, hm]
      rcases handleMessage_some_shape hm with rfl | ⟨text, rfl⟩ <;> simp

/-! ## The task-completion monitor -/

/-- C1: an update that belongs to another task is discarded. For every
monitored task `t`, every well-formed `task_update` message whose decoded
`task_id` differs from `t` (whatever its status) and every remaining stream
`s`, the loop on the message followed by `s` ends as it does on `s`, after
one read more, and `waitForTaskCompletion` has the same outcome on both
streams. -/
theorem waitForTaskCompletion_discards_other_task (w : World)
    (t userID wsURL message : String) (update : TaskUpdate) (s : List ReadResult)
    (hm : IsTaskUpdate w message update) (hother : update.TaskID ≠ t) :
    waitLoop w t (.msg message :: s) = ((waitLoop w t s).1, (waitLoop w t s).2 + 1) ∧
    (waitForTaskCompletion (w.withConn (.msg message :: s)) t userID wsURL).out =
      (waitForTaskCompletion (w.withConn s) t userID wsURL).out := by
  have hnone : handleMessage w t message = none := by
    rw [handleMessage_of_update t hm]; simp [hother]
  refine ⟨waitLoop_skip s hnone, ?_⟩
  rw [waitForTaskCompletion_withConn, waitForTaskCompletion_withConn, waitLoop_skip s hnone]

theorem waitForTaskCompletion_discards_other_task_witness :
    waitLoop exampleWorld "T1" [.msg msgT2Completed, .msg msgT1Running] =
        ((waitLoop exampleWorld "T1" [.msg msgT1Running]).1,
          (waitLoop exampleWorld "T1" [.msg msgT1Running]).2 + 1) ∧
    (waitForTaskCompletion (exampleWorld.withConn [.msg msgT2Completed, .msg msgT1Running])
        "T1" "u1" "wss://api.femorph.com/ws/subscribe").out =
      (waitForTaskCompletion (exampleWorld.withConn [.msg msgT1Running])
        "T1" "u1" "wss://api.femorph.com/ws/subscribe").out :=
  waitForTaskCompletion_discards_other_task exampleWorld "T1" "u1"
    "wss://api.femorph.com/ws/subscribe" msgT2Completed ⟨"T2", "completed", "", none, none⟩
    [.msg msgT1Running] ⟨_, rfl, rfl, rfl⟩ (by decide)

/-- C2: the first `completed` update for the monitored task ends the wait with
success. When the connection delivers a prefix of well-formed updates, each
for another task or for `t` with a status other than `completed` and
`failed`, and then a well-formed update for `t` with status `completed`,
`waitForTaskCompletion` returns a nil error after one dial and exactly as
many reads as the prefix is long plus one, and closes the connection; what
follows in the stream is never read. -/
theorem waitForTaskCompletion_completed (w : World) (t userID wsURL : String)
    (pre : List String) (message : String) (update : TaskUpdate) (rest : List ReadResult)
    (hdial : w.wsDial (wsURL ++ "/" ++ userID) = .ok (pre.map .msg ++ .msg message :: rest))
    (hpre : ∀ m ∈ pre, ∃ u, IsTaskUpdate w m u ∧
      (u.TaskID ≠ t ∨ (u.Status ≠ "completed" ∧ u.Status ≠ "failed")))
    (hm : IsTaskUpdate w message update) (hid : update.TaskID = t)
    (hst : update.Status = "completed") :
    waitForTaskCompletion w t userID wsURL =
      ⟨.ret none, .wsDial (wsURL ++ "/" ++ userID) ::
        (List.replicate (pre.length + 1) Effect.wsRead ++ [Effect.wsClose])⟩ := by
  have hskip : ∀ m ∈ pre, handleMessage w t m = none := by
    intro m hmem
    obtain ⟨u, hu, h⟩ := hpre m hmem
    rw [handleMessage_of_update t hu]
    rcases h with h | ⟨h1, h2⟩
    · simp [h]
    · simp [h1, h2]
  have hlast : handleMessage w t message = some none := by
    rw [handleMessage_of_update t hm]; simp [hid, hst]
  have hloop : waitLoop w t (pre.map .msg ++ .msg message :: rest) = (.ret none, pre.length + 1) := by
    rw [waitLoop_skip_many pre _ hskip]
    simp [waitLoop, hlast, Nat.add_comm]
  simp [waitForTaskCompletion, hdial, hloop, waitEffects]

theorem waitForTaskCompletion_completed_witness :
    waitForTaskCompletion
        (exampleWorld.withConn
          [.msg msgT2Running, .msg msgT1Running, .msg msgT1Completed, .msg msgT1FailedBoom])
        "T1" "u1" "wss://api.femorph.com/ws/subscribe" =
      ⟨.ret none, [.wsDial "wss://api.femorph.com/ws/subscribe/u1",
        .wsRead, .wsRead, .wsRead, .wsClose]⟩ :=
  waitForTaskCompletion_completed
    (exampleWorld.withConn
      [.msg msgT2Running, .msg msgT1Running, .msg msgT1Completed, .msg msgT1FailedBoom])
    "T1" "u1" "wss://api.femorph.com/ws/subscribe" [msgT2Running, msgT1Running] msgT1Completed
    ⟨"T1", "completed", "", none, none⟩ [.msg msgT1FailedBoom] rfl
    (by
      intro m hmem
      simp only [List.mem_cons, List.mem_singleton, List.not_mem_nil, or_false] at hmem
      rcases hmem with rfl | rfl
      · exact ⟨⟨"T2", "running", "", none, none⟩, ⟨_, rfl, rfl, rfl⟩, Or.inl (by decide)⟩
      · exact ⟨⟨"T1", "running", "", none, none⟩, ⟨_, rfl, rfl, rfl⟩,
          Or.inr ⟨by decide, by decide⟩⟩)
    ⟨_, rfl, rfl, rfl⟩ rfl rfl

/-- C3: what the code does on a `failed` update that carries an `error`: the
returned error is made by `errors.New` from the task id and the address of
the `*string` field, written in hexadecimal; the text the field points to is
not part of it. -/
theorem waitForTaskCompletion_failed_formats_pointer (w : World) (t userID wsURL : String)
    (message : String) (update : TaskUpdate) (p : StrPtr) (rest : List ReadResult)
    (hdial : w.wsDial (wsURL ++ "/" ++ userID) = .ok (.msg message :: rest))
    (hm : IsTaskUpdate w message update) (hid : update.TaskID = t)
    (hst : update.Status = "failed") (herr : update.Error = some p) (hp : p.addr ≠ 0) :
    waitForTaskCompletion w t userID wsURL =
      ⟨.ret (some (.new ("Task " ++ t ++ " failed: " ++ ("0x" ++ String.mk (Nat.toDigits 16 p.addr))))),
        [.wsDial (wsURL ++ "/" ++ userID), .wsRead, .wsClose]⟩ := by
  have hne : ¬ update.Status = "completed" := by rw [hst]; decide
  have hlast : handleMessage w t message =
      some (some (.new ("Task " ++ t ++ " failed: " ++ ("0x" ++ String.mk (Nat.toDigits 16 p.addr))))) := by
    rw [handleMessage_of_update t hm]
    simp [hid, hst, herr, fmtPointer, ptrAddr, hp]
  simp [waitForTaskCompletion, hdial, waitLoop, hlast, waitEffects]

theorem waitForTaskCompletion_failed_formats_pointer_witness :
    waitForTaskCompletion (exampleWorld.withConn [.msg msgT1FailedBoom])
        "T1" "u1" "wss://api.femorph.com/ws/subscribe" =
      ⟨.ret (some (.new "Task T1 failed: 0xc000012120")),
        [.wsDial "wss://api.femorph.com/ws/subscribe/u1", .wsRead, .wsClose]⟩ :=
  waitForTaskCompletion_failed_formats_pointer (exampleWorld.withConn [.msg msgT1FailedBoom])
    "T1" "u1" "wss://api.femorph.com/ws/subscribe" msgT1FailedBoom
    ⟨"T1", "failed", "", none, some ⟨0xc000012120, "boom"⟩⟩ ⟨0xc000012120, "boom"⟩ []
    rfl ⟨_, rfl, rfl, rfl⟩ rfl rfl rfl (by decide)

/-- C4: a bad message never ends the wait. For every monitored task `t`, every
message that is no JSON object envelope, or whose `type` is not the string
`task_update`, or whose `payload` does not decode as a `TaskUpdate`, and
every remaining stream `s`, the loop on the message followed by `s` ends as
it does on `s`, after one read more, and `waitForTaskCompletion` has the
same outcome on both streams. -/
theorem waitForTaskCompletion_discards_bad_message (w : World)
    (t userID wsURL message : String) (s : List ReadResult) (hbad : IsBadMessage w message) :
    waitLoop w t (.msg message :: s) = ((waitLoop w t s).1, (waitLoop w t s).2 + 1) ∧
    (waitForTaskCompletion (w.withConn (.msg message :: s)) t userID wsURL).out =
      (waitForTaskCompletion (w.withConn s) t userID wsURL).out := by
  have hnone := handleMessage_bad t hbad
  refine ⟨waitLoop_skip s hnone, ?_⟩
  rw [waitForTaskCompletion_withConn, waitForTaskCompletion_withConn, waitLoop_skip s hnone]

theorem waitForTaskCompletion_discards_bad_message_witness :
    waitLoop exampleWorld "T1" [.msg msgT1CompletedBadDate, .fail "EOF"] =
        ((waitLoop exampleWorld "T1" [.fail "EOF"]).1,
          (waitLoop exampleWorld "T1" [.fail "EOF"]).2 + 1) ∧
    (waitForTaskCompletion (exampleWorld.withConn [.msg msgT1CompletedBadDate, .fail "EOF"])
        "T1" "u1" "wss://api.femorph.com/ws/subscribe").out =
      (waitForTaskCompletion (exampleWorld.withConn [.fail "EOF"])
        "T1" "u1" "wss://api.femorph.com/ws/subscribe").out :=
  waitForTaskCompletion_discards_bad_message exampleWorld "T1" "u1"
    "wss://api.femorph.com/ws/subscribe" msgT1CompletedBadDate [.fail "EOF"]
    (Or.inr (Or.inr ⟨_, rfl, rfl⟩))

/-- C5: a failed read ends the wait with the error of that read. When the
connection delivers messages none of which is a terminal update for `t` and
then a read fails with `e`, `waitForTaskCompletion` returns exactly `e`
after one dial and exactly as many reads as there were messages plus one,
and closes the connection; and on a connection all of whose reads succeed
it returns no library error at all. -/
theorem waitForTaskCompletion_read_failure (w : World) (t userID wsURL : String) :
    (∀ (pre : List String) (e : String) (rest : List ReadResult),
      w.wsDial (wsURL ++ "/" ++ userID) = .ok (pre.map .msg ++ .fail e :: rest) →
      (∀ m ∈ pre, ¬ IsTerminalFor w t m) →
      waitForTaskCompletion w t userID wsURL =
        ⟨.ret (some (.lib e)), .wsDial (wsURL ++ "/" ++ userID) ::
          (List.replicate (pre.length + 1) Effect.wsRead ++ [Effect.wsClose])⟩) ∧
    (∀ (msgs : List String) (e : String),
      w.wsDial (wsURL ++ "/" ++ userID) = .ok (msgs.map .msg) →
      (waitForTaskCompletion w t userID wsURL).out ≠ .ret (some (.lib e))) := by
  constructor
  · intro pre e rest hdial hpre
    have hskip : ∀ m ∈ pre, handleMessage w t m = none :=
      fun m hmem => handleMessage_not_terminal (hpre m hmem)
    have hloop : waitLoop w t (pre.map .msg ++ .fail e :: rest) =
        (.ret (some (.lib e)), pre.length + 1) := by
      rw [waitLoop_skip_many pre _ hskip]
      simp [waitLoop, Nat.add_comm]
    simp [waitForTaskCompletion, hdial, hloop, waitEffects]
  · intro msgs e hdial
    simp only [waitForTaskCompletion, hdial]
    exact waitLoop_all_msg_ne_lib w t msgs e

theorem handleMessage_terminal {w : World} {taskID message : String}
    (h : IsTerminalFor w taskID message) : (handleMessage w taskID message).isSome = true := by
  obtain ⟨update, hu, hid, hst⟩ := h
  rw [handleMessage_of_update taskID hu]
  rcases hst with hst | hst
  · simp [hid, hst]
  · simp [hid, hst]

theorem waitForTaskCompletion_read_failure_witness :
    waitForTaskCompletion
        (exampleWorld.withConn
          [.msg msgT2Completed, .msg msgT1Running, .fail "websocket: close 1006", .msg msgT1Completed])
        "T1" "u1" "wss://api.femorph.com/ws/subscribe" =
      ⟨.ret (some (.lib "websocket: close 1006")),
        [.wsDial "wss://api.femorph.com/ws/subscribe/u1", .wsRead, .wsRead, .wsRead, .wsClose]⟩ ∧
    (waitForTaskCompletion (exampleWorld.withConn [.msg msgT2Completed, .msg msgT1FailedBoom])
        "T1" "u1" "wss://api.femorph.com/ws/subscribe").out ≠
      .ret (some (.lib "websocket: close 1006")) :=
  ⟨(waitForTaskCompletion_read_failure
      (exampleWorld.withConn
        [.msg msgT2Completed, .msg msgT1Running, .fail "websocket: close 1006", .msg msgT1Completed])
      "T1" "u1" "wss://api.femorph.com/ws/subscribe").1
      [msgT2Completed, msgT1Running] "websocket: close 1006" [.msg msgT1Completed] rfl
      (by
        intro m hmem
        simp only [List.mem_cons, List.mem_singleton, List.not_mem_nil, or_false] at hmem
        rcases hmem with rfl | rfl
        · exact fun h => absurd (handleMessage_terminal h) (by decide)
        · exact fun h => absurd (handleMessage_terminal h) (by decide)),
    (waitForTaskCompletion_read_failure
      (exampleWorld.withConn [.msg msgT2Completed, .msg msgT1FailedBoom])
      "T1" "u1" "wss://api.femorph.com/ws/subscribe").2
      [msgT2Completed, msgT1FailedBoom] "websocket: close 1006" rfl⟩

/-! ## The orchestrator: the trace of steps -/

theorem main_steps_checked (w : World) : stepsChecked (main w).steps = true := by
  unfold main
  simp only []
  cases (assertHealthy w ("https://" ++ ProdAddr)).out with
  | ret a =>
    dsimp only
    cases (authenticate w (w.getenv "FEMORPH_USERNAME") (w.getenv "FEMORPH_PASSWORD")
      ("https://" ++ ProdAddr)).out with
    | ret s =>
      obtain ⟨userID, accessToken⟩ := s
      dsimp only
      cases (clearSession w userID accessToken ("https://" ++ ProdAddr)).out with
      | ret c =>
        dsimp only
        cases (uploadFile w BasePath "fems" userID accessToken ("https://" ++ ProdAddr)).out with
        | ret f =>
          obtain ⟨femID, ferr⟩ := f
          cases ferr with
          | none =>
            dsimp only
            cases (uploadFile w SurfacePath "surfaces" userID accessToken
              ("https://" ++ ProdAddr)).out with
            | ret g =>
              obtain ⟨surfaceID, gerr⟩ := g
              cases gerr with
              | none =>
                dsimp only
                cases (morphFem w femID surfaceID userID accessToken ("https://" ++ ProdAddr)).out with
                | ret taskID =>
                  dsimp only
                  cases (waitForTaskCompletion w taskID userID
                    ("wss://" ++ ProdAddr ++ "/ws/subscribe")).out with
                  | ret r => cases r <;> cases c <;> rfl
                  | _ => cases c <;> rfl
                | _ => cases c <;> rfl
              | some e => cases c <;> rfl
            | _ => cases c <;> rfl
          | some e => cases c <;> rfl
        | _ => cases c <;> rfl
      | _ => rfl
    | _ => rfl
  | _ => rfl

theorem main_steps_in_order (w : World) : (main w).steps.map Prod.fst <+: Step.pipeline := by
  have h := main_steps_checked w
  simp only [stepsChecked, Bool.and_eq_true] at h
  exact List.isPrefixOf_iff_prefix.mp h.1.1

theorem main_failed_step_last (w : World) (k : Step) (e : StepEnd)
    (hmem : (k, e) ∈ (main w).steps) (hfail : mayContinue (k, e) = false) :
    (main w).steps.getLast? = some (k, e) := by
  have h := main_steps_checked w
  simp only [stepsChecked, Bool.and_eq_true, List.all_eq_true] at h
  have h2 := h.1.2 (k, e) hmem
  simpa [hfail] using h2

theorem main_upload_after_clear_error (w : World)
    (hmem : (Step.clearSession, StepEnd.error) ∈ (main w).steps) :
    ∃ e, (Step.uploadMesh, e) ∈ (main w).steps := by
  have h := main_steps_checked w
  simp only [stepsChecked, Bool.and_eq_true] at h
  have h3 := h.2
  simp only [Bool.or_eq_true, Bool.not_eq_true', List.any_eq_true] at h3
  rcases h3 with h3 | ⟨⟨k, e⟩, hx, hk⟩
  · simp [hmem] at h3
  · have hk' : k = Step.uploadMesh := by simpa using hk
    subst hk'
    exact ⟨e, hx⟩

theorem mayContinue_eq_false {k : Step} {e : StepEnd} (hne : e ≠ .ok)
    (hclear : (k, e) ≠ (Step.clearSession, StepEnd.error)) : mayContinue (k, e) = false := by
  cases k <;> cases e <;> simp_all [mayContinue]

/-! ## `authenticate` -/

/-- C6, as the code has it: `authenticate` requires a non-empty access token
and nothing else. For every response to the `/auth` request whose decoded
body has no `access_token` string (absent, empty, `null` or of another
type), `authenticate` ends the process with `log.Fatal` and returns no
session; and in `main` an `authenticate` step that did not end well is the
last step of the run. -/
theorem authenticate_requires_access_token (w : World) (username password baseURL : String)
    (resp : Response)
    (hpost : w.httpPost (baseURL ++ "/auth") "application/json"
      (.json (toMap [("email", username), ("password", password)])) = .ok resp)
    (htoken : lookupString "access_token" (decodeStringMap w resp.body) = "") :
    (authenticate w username password baseURL).out =
        .fatal false [.text "No access token: %s", .response resp.statusCode resp.body] ∧
    (∀ r, (authenticate w username password baseURL).out ≠ .ret r) ∧
    (∀ e, (Step.authenticate, e) ∈ (main w).steps → e ≠ .ok →
      (main w).steps.getLast? = some (Step.authenticate, e)) := by
  have hout : (authenticate w username password baseURL).out =
      .fatal false [.text "No access token: %s", .response resp.statusCode resp.body] := by
    simp [authenticate, hpost, htoken]
  refine ⟨hout, ?_, ?_⟩
  · intro r; rw [hout]; simp
  · intro e hmem hne
    exact main_failed_step_last w _ _ hmem (mayContinue_eq_false hne (by simp))

theorem authenticate_requires_access_token_witness :
    (authenticate (authWorld bodyUserOnly) "user@femorph.com" "pw" "https://api.femorph.com").out =
        .fatal false [.text "No access token: %s", .response 200 bodyUserOnly] ∧
    (∀ r, (authenticate (authWorld bodyUserOnly) "user@femorph.com" "pw"
        "https://api.femorph.com").out ≠ .ret r) ∧
    (∀ e, (Step.authenticate, e) ∈ (main (authWorld bodyUserOnly)).steps → e ≠ .ok →
      (main (authWorld bodyUserOnly)).steps.getLast? = some (Step.authenticate, e)) :=
  authenticate_requires_access_token (authWorld bodyUserOnly) "user@femorph.com" "pw"
    "https://api.femorph.com" ⟨200, bodyUserOnly⟩ rfl (by decide)

/-- C6, the claim as stated fails: the body `{"access_token":"t"}` has no
`user_id`, yet `authenticate` returns a session, with the empty user
identifier, and `main` goes on with `clearSession` and the mesh upload. -/
theorem authenticate_accepts_missing_user_id :
    lookupString "user_id" (decodeStringMap (authWorld bodyTokenOnly) bodyTokenOnly) = "" ∧
    authenticate (authWorld bodyTokenOnly) "user@femorph.com" "pw" "https://api.femorph.com" =
      ⟨.ret ("", "t"),
        [.httpPost "https://api.femorph.com/auth" "application/json"
          (.json [("email", "user@femorph.com"), ("password", "pw")]), .bodyClose]⟩ ∧
    (main (authWorld bodyTokenOnly)).steps =
      [(.health, .ok), (.authenticate, .ok), (.clearSession, .ok), (.uploadMesh, .error)] := by
  decide

/-! ## `main` -/

/-- The order of the steps and the end of the run in `main`, as the code has
them. For every run: the steps called are an initial part of health,
authenticate, clear session, upload mesh, upload surface, submit morph,
await completion; every step that did not end well, other than a
`clearSession` that returned an error, is the last step called; and after a
`clearSession` that returned an error the mesh upload is called. -/
theorem main_steps_fail_fast (w : World) :
    ((main w).steps.map Prod.fst <+: Step.pipeline) ∧
    (∀ k e, (k, e) ∈ (main w).steps → e ≠ .ok → (k, e) ≠ (Step.clearSession, StepEnd.error) →
      (main w).steps.getLast? = some (k, e)) ∧
    ((Step.clearSession, StepEnd.error) ∈ (main w).steps →
      ∃ e, (Step.uploadMesh, e) ∈ (main w).steps) :=
  ⟨main_steps_in_order w,
    fun k e hmem hne hclear => main_failed_step_last w k e hmem (mayContinue_eq_false hne hclear),
    main_upload_after_clear_error w⟩

theorem main_steps_fail_fast_example :
    ((main diskFullWorld).steps.map Prod.fst <+: Step.pipeline) ∧
    (main diskFullWorld).steps.getLast? = some (Step.uploadMesh, StepEnd.fatal) ∧
    (∃ e, (Step.uploadMesh, e) ∈ (main unreachableWorld).steps) :=
  ⟨(main_steps_fail_fast diskFullWorld).1,
    (main_steps_fail_fast diskFullWorld).2.1 Step.uploadMesh StepEnd.fatal
      (by decide) (by decide) (by decide),
    (main_steps_fail_fast unreachableWorld).2.2 (by decide)⟩

/-- C7, the run of `main` when `clearSession` fails: the DELETE request can
not be sent, `clearSession` returns the error of `client.Do`, `main` drops
it and calls `uploadFile` for the mesh, which opens the file; the run ends
only because that upload fails in its turn. -/
theorem main_continues_after_clearSession_error :
    (clearSession unreachableWorld "u1" "t" "https://api.femorph.com").out =
      .ret (some (.lib "connection reset by peer")) ∧
    (main unreachableWorld).steps =
      [(.health, .ok), (.authenticate, .ok), (.clearSession, .error), (.uploadMesh, .error)] ∧
    Effect.fileOpen BasePath ∈ (main unreachableWorld).effects ∧
    (main unreachableWorld).exit = .fatal false [.err (.lib "open: no such file or directory")] := by
  decide

/-! ## `uploadFile` -/

/-- C8: a rejected upload yields no file identifier. When the file was read
and the request was answered, for every response whose status code is not a
2xx code and whatever its body, `uploadFile` ends the process with
`log.Fatal`, handing the logger the raw body of the response; it does not
return, so no file identifier results, and the body is not decoded: the
outcome is the same whatever the JSON decoder makes of the body. -/
theorem uploadFile_rejected_upload (w : World)
    (filePath endpoint userID accessToken baseURL : String)
    (file : File) (content : String) (resp : Response)
    (hopen : w.osOpen filePath = .ok file)
    (hform : w.createFormFile "file" (w.filepathBase filePath) = none)
    (hcopy : file.content = .ok content)
    (hreq : w.newRequest "POST" (baseURL ++ "/users/" ++ userID ++ "/" ++ endpoint) = none)
    (hdo : w.httpDo (uploadRequest w filePath endpoint userID accessToken baseURL content)
      = .ok resp)
    (hstatus : ¬ (200 ≤ resp.statusCode ∧ resp.statusCode < 300)) :
    (uploadFile w filePath endpoint userID accessToken baseURL).out =
        .fatal false [.text "Upload failed: %s", .bytes resp.body] ∧
    (∀ r, (uploadFile w filePath endpoint userID accessToken baseURL).out ≠ .ret r) ∧
    (∀ decoder : String → Option Json,
      (uploadFile { w with unmarshal := decoder } filePath endpoint userID accessToken baseURL).out =
        (uploadFile w filePath endpoint userID accessToken baseURL).out) := by
  have hne : resp.statusCode ≠ StatusOK := by
    intro h; apply hstatus; rw [h]; decide
  have hout : (uploadFile w filePath endpoint userID accessToken baseURL).out =
      .fatal false [.text "Upload failed: %s", .bytes resp.body] := by
    simp [uploadFile, hopen, hform, hcopy, hreq, hdo, hne]
  refine ⟨hout, fun r => by rw [hout]; simp, fun decoder => ?_⟩
  have hdo2 : w.httpDo
      (uploadRequest { w with unmarshal := decoder } filePath endpoint userID accessToken baseURL
        content) = .ok resp := hdo
  rw [hout]
  simp [uploadFile, hopen, hform, hcopy, hreq, hdo2, hne]

theorem uploadFile_rejected_upload_witness :
    (uploadFile diskFullWorld BasePath "fems" "u1" "t" "https://api.femorph.com").out =
        .fatal false [.text "Upload failed: %s", .bytes "disk full"] ∧
    (∀ r, (uploadFile diskFullWorld BasePath "fems" "u1" "t" "https://api.femorph.com").out
      ≠ .ret r) ∧
    (∀ decoder : String → Option Json,
      (uploadFile { diskFullWorld with unmarshal := decoder } BasePath "fems" "u1" "t"
        "https://api.femorph.com").out =
      (uploadFile diskFullWorld BasePath "fems" "u1" "t" "https://api.femorph.com").out) :=
  uploadFile_rejected_upload diskFullWorld BasePath "fems" "u1" "t" "https://api.femorph.com"
    ⟨.ok "solid"⟩ "solid" ⟨500, "disk full"⟩ rfl rfl rfl rfl rfl (by decide)

/-- C10: a file that can not be opened is not uploaded. For every path that
`os.Open` refuses, `uploadFile` returns the empty identifier and the error
of `os.Open`; its only effect is the attempt to open the file: no form file
is made and nothing goes over the network. -/
theorem uploadFile_unopened_file (w : World)
    (filePath endpoint userID accessToken baseURL err : String)
    (hopen : w.osOpen filePath = .error err) :
    uploadFile w filePath endpoint userID accessToken baseURL =
        ⟨.ret ("", some (.lib err)), [.fileOpen filePath]⟩ ∧
    (uploadFile w filePath endpoint userID accessToken baseURL).effects.filter Effect.isNetwork
      = [] ∧
    (∀ field name,
      Effect.formFile field name ∉ (uploadFile w filePath endpoint userID accessToken baseURL).effects)
    := by
  have hrun : uploadFile w filePath endpoint userID accessToken baseURL =
      ⟨.ret ("", some (.lib err)), [.fileOpen filePath]⟩ := by
    simp [uploadFile, hopen]
  refine ⟨hrun, ?_, ?_⟩
  · rw [hrun]; simp [Effect.isNetwork]
  · intro field name; rw [hrun]; simp

theorem uploadFile_unopened_file_witness :
    uploadFile exampleWorld "data/missing.cdb" "fems" "u1" "t" "https://api.femorph.com" =
        ⟨.ret ("", some (.lib "open: no such file or directory")),
          [.fileOpen "data/missing.cdb"]⟩ ∧
    (uploadFile exampleWorld "data/missing.cdb" "fems" "u1" "t"
      "https://api.femorph.com").effects.filter Effect.isNetwork = [] ∧
    (∀ field name, Effect.formFile field name ∉
      (uploadFile exampleWorld "data/missing.cdb" "fems" "u1" "t"
        "https://api.femorph.com").effects) :=
  uploadFile_unopened_file exampleWorld "data/missing.cdb" "fems" "u1" "t"
    "https://api.femorph.com" "open: no such file or directory" rfl

/-! ## `clearSession` -/

/-- C9, what the code does when the DELETE request can not be built: the
error of `http.NewRequest` is not looked at and the nil request is used, so
the call panics before anything is sent and returns nothing. -/
theorem clearSession_unbuilt_request_panics (w : World)
    (userID accessToken baseURL err : String)
    (hreq : w.newRequest "DELETE" (baseURL ++ "/users/" ++ userID ++ "/data") = some err) :
    clearSession w userID accessToken baseURL = ⟨.panic nilDereference, []⟩ := by
  simp [clearSession, hreq]

theorem clearSession_unbuilt_request_panics_witness :
    clearSession exampleWorld "u\n1" "t" "https://api.femorph.com" =
      ⟨.panic nilDereference, []⟩ :=
  clearSession_unbuilt_request_panics exampleWorld "u\n1" "t" "https://api.femorph.com"
    "net/url: invalid control character in URL" rfl

end Femorph
